import Mathlib

/-!
# Verification of `core/synchronization/find_offset/rs_sync.rs`

Shallow embedding of the rs-sync gyro/video synchronization core.
Numeric values (`f64`, `f32` coordinates) are modelled as exact rationals
(`ℚ`); timestamps (`i64` microseconds) as `Int`.  External collaborators
(the `rs_sync::SyncProblem` optimizer, `undistort_points_for_optical_flow`,
`GyroSource::apply_transforms`, vector normalization) are taken as oracle
function parameters, so every theorem quantifies over them.
-/

namespace RsSync

/-- A 2D tracked point `(x, y)` (source: elements of `OpticalFlowPoints`). -/
abbrev Pt : Type := ℚ × ℚ

/-- One matched optical-flow record stored per frame:
`((a_t, a_p), (b_t, b_p))` — (current frame timestamp, its points),
(next frame timestamp, its points). -/
abbrev OptFlowData : Type := (Int × List Pt) × (Int × List Pt)

/-- Frame dimension `(width, height)`. -/
abbrev FrameSize : Type := Nat × Nat

/-- A quaternion `(w, x, y, z)` over exact rationals (source: `Quat64`). -/
structure Quat where
  w : ℚ
  x : ℚ
  y : ℚ
  z : ℚ
deriving DecidableEq, Repr

/-- Hamilton product of two quaternions, the semantics of nalgebra's
quaternion multiplication used in `set_quats`. -/
def quatMul (p q : Quat) : Quat :=
  ⟨p.w * q.w - p.x * q.x - p.y * q.y - p.z * q.z,
   p.w * q.x + p.x * q.w + p.y * q.z - p.z * q.y,
   p.w * q.y - p.x * q.z + p.y * q.w + p.z * q.x,
   p.w * q.z + p.x * q.y - p.y * q.x + p.z * q.w⟩

/-- The fixed rotation `Quat64::from_scaled_axis(Vector3::new(PI, 0, 0))`:
the exact quaternion of a 180° rotation about the X axis,
`(cos(π/2), sin(π/2)·(1,0,0)) = (0, 1, 0, 0)`. -/
def rotX180 : Quat := ⟨0, 1, 0, 0⟩

/-- The shared gyro source (source: `GyroSource`), restricted to the fields
this core touches: the IMU orientation label inside `imu_transforms`, and
the computed quaternion time series `quaternions : TimeQuat`. -/
structure GyroSource where
  imu_orientation : Option String
  quaternions : List (Int × Quat)
deriving DecidableEq, Repr

/-- Lens profile, restricted to the `global_shutter` flag. -/
structure LensProfile where
  global_shutter : Bool
deriving DecidableEq, Repr

/-- `ComputeParams`, restricted to the fields read by this core. -/
structure ComputeParams where
  frame_readout_time : ℚ
  scaled_fps : ℚ
  lens : LensProfile
  gyro : GyroSource
deriving DecidableEq, Repr

/-- `SyncParams`, restricted to the fields read by this core. -/
structure SyncParams where
  initial_offset : ℚ
  search_size : ℚ
deriving DecidableEq, Repr

/-- The effective frame readout time (seconds) computed at the start of
`FindOffsetsRssync::new`:
`frame_readout_time` if nonzero, else `1000 / scaled_fps / 2` ms,
overridden to `0.01` ms when the lens is global-shutter; finally `/ 1000`. -/
def effectiveFrameReadoutTime (params : ComputeParams) : ℚ :=
  let frt0 := if params.frame_readout_time = 0
              then 1000 / params.scaled_fps / 2
              else params.frame_readout_time
  let frt1 := if params.lens.global_shutter then (0.01 : ℚ) else frt0
  frt1 / 1000

/-- The quaternion adapter `set_quats`: every time-indexed sample `q` is
multiplied (Hamilton product) by `rotX180`, and the components
`(w, -x, -y, -z)` of the product are emitted, timestamp unchanged.
The returned list is what `sync.set_gyro_quaternions` receives. -/
def set_quats (source_quats : List (Int × Quat)) : List (Int × (ℚ × ℚ × ℚ × ℚ)) :=
  source_quats.map (fun p =>
    let q := quatMul p.2 rotX180
    (p.1, (q.w, -q.x, -q.y, -q.z)))

/-- Per-frame record in the frame-result store (source: `FrameResult`),
restricted to the fields read here.  `optical_flow = none` models a failed
`try_borrow`; the list models the `BTreeMap<usize, Option<OpticalFlowPoints>>`
queried at key `1`. -/
structure FrameResult where
  optical_flow : Option (List (Nat × Option OptFlowData))
  frame_size : FrameSize

/-- Oracle for the external `undistort_points_for_optical_flow`
(arguments: raw points, timestamp, frame size; `ComputeParams` is captured). -/
abbrev Undistort : Type := List Pt → Int → FrameSize → List Pt

/-- Oracle for nalgebra's `Vector3::normalize` (its square root is not
rational, so the map stays abstract). -/
abbrev Normalize3 : Type := ℚ × ℚ × ℚ → ℚ × ℚ × ℚ

/-- One correspondence row registered with the optimizer:
`((ts_a, ts_b), (point3d_a, point3d_b))`. -/
abbrev Corr : Type := (ℚ × ℚ) × ((ℚ × ℚ × ℚ) × (ℚ × ℚ × ℚ))

/-- Oracle for the optimizer's `SyncProblem::full_sync`
(registered quaternions, initial delay (s), from_ts, to_ts, step (s),
radius (s), refinement depth) → `Option (cost, offset-in-seconds)`. -/
abbrev OptOracle : Type :=
  List (Int × (ℚ × ℚ × ℚ × ℚ)) → ℚ → Int → Int → ℚ → ℚ → Nat → Option (ℚ × ℚ)

/-- Oracle for the optimizer's `SyncProblem::pre_sync`
(same arguments without the refinement depth). -/
abbrev PreOracle : Type :=
  List (Int × (ℚ × ℚ × ℚ × ℚ)) → ℚ → Int → Int → ℚ → ℚ → Option (ℚ × ℚ)

/-- Body of `collect_points` for one range `(from_ts, to_ts)`: when
`to_ts > from_ts`, walk the store entries with key in `[from_ts, to_ts)`
and keep, per frame, the optical-flow record under method key `1` when its
lazy borrow succeeds and it is present; otherwise the range yields `[]`. -/
def collectRange (sync_results : List (Int × FrameResult)) (r : Int × Int) :
    List (OptFlowData × FrameSize) :=
  if r.1 < r.2 then
    (sync_results.filter (fun kv => r.1 ≤ kv.1 ∧ kv.1 < r.2)).filterMap
      (fun kv =>
        match kv.2.optical_flow with
        | some ofMap =>
          match ofMap.lookup 1 with
          | some (some opt_pts) => some (opt_pts, kv.2.frame_size)
          | _ => none
        | none => none)
  else []

/-- `FindOffsetsRssync::collect_points`: one collected list per range. -/
def collect_points (sync_results : List (Int × FrameResult))
    (ranges : List (Int × Int)) : List (List (OptFlowData × FrameSize)) :=
  ranges.map (collectRange sync_results)

/-- The inner rolling-shutter loop of `FindOffsetsRssync::new`: walk the
undistorted lists `a`, `b` in parallel (as `a.iter().zip(b.iter()).enumerate()`),
reading the raw points `a_p[i]`, `b_p[i]` for the scanline timestamps
(`none` models the index-out-of-bounds panic). -/
def buildCorrs (n3 : Normalize3) (frt : ℚ) (a_t b_t : Int) (height : ℚ)
    (a_p b_p : List Pt) : Nat → List Pt → List Pt → Option (List Corr)
  | _, [], _ => some []
  | _, _ :: _, [] => some []
  | i, ap :: arest, bp :: brest =>
    match a_p.get? i, b_p.get? i with
    | some rawA, some rawB =>
      let ts_a := (a_t : ℚ) / 1000000 + frt * (rawA.2 / height)
      let ts_b := (b_t : ℚ) / 1000000 + frt * (rawB.2 / height)
      let pa := n3 (ap.1, ap.2, 1)
      let pb := n3 (bp.1, bp.2, 1)
      match buildCorrs n3 frt a_t b_t height a_p b_p (i + 1) arest brest with
      | some rest => some (((ts_a, ts_b), (pa, pb)) :: rest)
      | none => none
    | _, _ => none

/-- Processing of one matched entry inside `FindOffsetsRssync::new`:
undistort both point lists, `assert!(a.len() == b.len())` (`none` models
the panicking assert), then build the correspondence rows that
`sync.set_track_result` receives. -/
def processEntry (undist : Undistort) (n3 : Normalize3) (frt : ℚ)
    (from_ts to_ts : Int) (e : OptFlowData × FrameSize) : Option (List Corr) :=
  let a := undist e.1.1.2 from_ts e.2
  let b := undist e.1.2.2 to_ts e.2
  if a.length = b.length then
    buildCorrs n3 frt e.1.1.1 e.1.2.1 ((e.2.2 : ℚ)) e.1.1.2 e.1.2.2 0 a b
  else none

/-- The per-range loop of `FindOffsetsRssync::new`, threading the
`from_ts`/`to_ts` accumulators (`from_ts` starts at `-1` and is fixed at
the first entry's `a_t`; `to_ts` is the current entry's `b_t`); returns
the window bounds pushed onto `sync_points`. -/
def processEntries (undist : Undistort) (n3 : Normalize3) (frt : ℚ) :
    Int → Int → List (OptFlowData × FrameSize) → Option (Int × Int)
  | from_ts, to_ts, [] => some (from_ts, to_ts)
  | from_ts, _, e :: rest =>
    let from_ts' := if from_ts = -1 then e.1.1.1 else from_ts
    let to_ts' := e.1.2.1
    match processEntry undist n3 frt from_ts' to_ts' e with
    | some _ => processEntries undist n3 frt from_ts' to_ts' rest
    | none => none

/-- Processing of one collected range (loop body of
`FindOffsetsRssync::new` after the length guard). -/
def processRange (undist : Undistort) (n3 : Normalize3) (frt : ℚ)
    (rg : List (OptFlowData × FrameSize)) : Option (Int × Int) :=
  processEntries undist n3 frt (-1) 0 rg

/-- The range loop of `FindOffsetsRssync::new`: ranges whose collected
list has fewer than 2 entries are warned about and skipped (`continue`);
the others are processed and contribute one window each. -/
def mkSyncPoints (undist : Undistort) (n3 : Normalize3) (frt : ℚ) :
    List (List (OptFlowData × FrameSize)) → Option (List (Int × Int))
  | [] => some []
  | rg :: rest =>
    if rg.length < 2 then mkSyncPoints undist n3 frt rest
    else
      match processRange undist n3 frt rg, mkSyncPoints undist n3 frt rest with
      | some w, some ws => some (w :: ws)
      | _, _ => none

/-- The `sync_points` computed by `FindOffsetsRssync::new` from the store,
the requested ranges and the compute parameters. -/
def newSyncPoints (undist : Undistort) (n3 : Normalize3)
    (sync_results : List (Int × FrameResult)) (ranges : List (Int × Int))
    (params : ComputeParams) : Option (List (Int × Int)) :=
  mkSyncPoints undist n3 (effectiveFrameReadoutTime params)
    (collect_points sync_results ranges)

/-- `FindOffsetsRssync::full_sync`: adapt the gyro quaternions with
`set_quats`, then for every sync window run the optimizer's coarse-to-fine
search (step 3 ms, radius `search_size`, depth 4, initial delay
`-initial_offset`); accept a candidate iff `|offset - initial_delay| <
0.9 * search_size`, emitting `((from+to)/2/1000, -offset - readout*1000/2,
cost)`.  The closing `log::info!` indexes `sync_points[0]`, so with info
logging enabled and no sync points the function panics (`none`). -/
def full_sync (opt : OptOracle) (gyro : GyroSource)
    (sync_points : List (Int × Int)) (sync_params : SyncParams)
    (frame_readout_time : ℚ) (infoLogEnabled : Bool) :
    Option (List (ℚ × ℚ × ℚ)) :=
  let q := set_quats gyro.quaternions
  let offsets := sync_points.filterMap (fun w =>
    let presync_step : ℚ := 3
    let presync_radius := sync_params.search_size
    let initial_delay := -sync_params.initial_offset
    match opt q (initial_delay / 1000) w.1 w.2 (presync_step / 1000)
        (presync_radius / 1000) 4 with
    | some delay =>
      let offset := delay.2 * 1000
      if |offset - initial_delay| < presync_radius * 0.9 then
        some (((w.1 + w.2 : Int) : ℚ) / 2 / 1000,
              -offset - frame_readout_time * 1000 / 2, delay.1)
      else none
    | none => none)
  if infoLogEnabled && sync_points.isEmpty then none else some offsets

/-- The 48 candidate orientation strings of `guess_orient`, verbatim. -/
def possible_orientations : List String :=
  ["YxZ", "Xyz", "XZy", "Zxy", "zyX", "yxZ", "ZXY", "zYx", "ZYX", "yXz", "YZX", "XyZ",
   "Yzx", "zXy", "YXz", "xyz", "yZx", "XYZ", "zxy", "xYz", "XYz", "zxY", "zXY", "xZy",
   "zyx", "xyZ", "Yxz", "xzy", "yZX", "yzX", "ZYx", "xYZ", "zYX", "ZxY", "yzx", "xZY",
   "Xzy", "XzY", "YzX", "Zyx", "XZY", "yxz", "xzY", "ZyX", "YXZ", "yXZ", "YZx", "ZXy"]

/-- The candidate loop of `guess_orient`: for each orientation string, set
it on the (threaded) private clone, reapply the transforms
(`apply_transforms`, oracle `applyT`), adapt the recomputed quaternions
with `set_quats`, and sum the `pre_sync` costs over all sync windows
(`unwrap_or((0.0, 0.0))` makes a missing estimate contribute 0). -/
def guessOrientGo (applyT : GyroSource → GyroSource) (pre : PreOracle)
    (sync_params : SyncParams) (sync_points : List (Int × Int)) :
    GyroSource → List String → List (String × ℚ)
  | _, [] => []
  | clone, orient :: rest =>
    let clone' := applyT (GyroSource.mk (some orient) clone.quaternions)
    let q := set_quats clone'.quaternions
    let total_cost : ℚ := (sync_points.map (fun w =>
      ((pre q (-sync_params.initial_offset / 1000) w.1 w.2 (3 / 1000)
          (sync_params.search_size / 1000)).getD (0, 0)).1)).sum
    (orient, total_cost) :: guessOrientGo applyT pre sync_params sync_points clone' rest

/-- Rust's `Iterator::reduce` with the closure
`if a.1 < b.1 { a } else { b }` used by `guess_orient`. -/
def reduceMinCost (l : List (String × ℚ)) : Option (String × ℚ) :=
  match l with
  | [] => none
  | x :: xs => some (xs.foldl (fun a b => if a.2 < b.2 then a else b) x)

/-- `FindOffsetsRssync::guess_orient`: clone the shared gyro source, run
the candidate loop on the private clone, reduce to the minimum-cost
candidate.  The second component is the shared gyro source's state after
the call (only the clone is ever mutated). -/
def guess_orient (applyT : GyroSource → GyroSource) (pre : PreOracle)
    (sync_params : SyncParams) (sync_points : List (Int × Int))
    (gyro : GyroSource) : Option (String × ℚ) × GyroSource :=
  (reduceMinCost
    (guessOrientGo applyT pre sync_params sync_points gyro possible_orientations),
   gyro)

/-- The public `find_offsets` as it stands in the source: the whole
pipeline is commented out and a fixed five-element literal
`Vec<(timestamp, offset, cost)>` is returned; no argument is read and the
progress callback is never invoked.  The second component of the result is
the trace of progress-callback invocations (empty). -/
def find_offsets {α β : Type} (estimator : α) (ranges : List (Int × Int))
    (sync_params : SyncParams) (params : ComputeParams) (progress_cb : β)
    (cancel_flag : Bool) : List (ℚ × ℚ × ℚ) × List ℚ :=
  ([(3403.4, 49.07149195073893, 2469.454571794784),
    (10210.2, 49.02560488334704, 1687.1520000469884),
    (17000.3165, 49.38418205303837, 1856.5180621988166),
    (23790.4335, 50.2977951166321, 1681.702319836711),
    (30597.2335, 50.46544919417218, 3068.1429766153424)], [])

/-! ### Concrete sample instances (used to evaluate the theorems) -/

/-- Optimizer oracle that always reports cost 100 at offset 0 s. -/
def optConst : OptOracle := fun _ _ _ _ _ _ _ => some (100, 0)

/-- `pre_sync` oracle that always reports no result. -/
def preNone : PreOracle := fun _ _ _ _ _ _ => none

/-- A gyro source with no orientation label and no quaternion samples. -/
def gyroEmpty : GyroSource := GyroSource.mk none []

/-- Sample sync parameters: initial offset 0 ms, search size 1000 ms. -/
def sparSample : SyncParams := SyncParams.mk 0 1000

/-- Undistortion oracle that returns the raw points unchanged. -/
def undistId : Undistort := fun p _ _ => p

/-- Normalization oracle that returns its argument unchanged. -/
def norm3Id : Normalize3 := fun v => v

/-! ## Theorems -/

/-- C1: `find_offsets` returns the same fixed five-element list of
(timestamp, offset, cost) triples beginning
`(3403.4, 49.07149195073893, 2469.454571794784)` for every input, its
output is independent of every argument, and it invokes no progress
callback (empty invocation trace); the pipeline (point collection,
optimizer search) is commented out in the source. -/
theorem find_offsets_constant {α β : Type} (estimator : α)
    (ranges : List (Int × Int)) (sync_params : SyncParams)
    (params : ComputeParams) (progress_cb : β) (cancel_flag : Bool) :
    find_offsets estimator ranges sync_params params progress_cb cancel_flag =
      ([(3403.4, 49.07149195073893, 2469.454571794784),
        (10210.2, 49.02560488334704, 1687.1520000469884),
        (17000.3165, 49.38418205303837, 1856.5180621988166),
        (23790.4335, 50.2977951166321, 1681.702319836711),
        (30597.2335, 50.46544919417218, 3068.1429766153424)], []) := rfl

/-- C2 (code bug): with the cancel flag set before any window is
processed, `find_offsets` still returns the fixed five-element list, not
an empty list — the live code ignores the cancel flag entirely. -/
theorem find_offsets_ignores_cancel :
    (find_offsets () [] (SyncParams.mk 0 5000)
        (ComputeParams.mk 0 30 (LensProfile.mk false) (GyroSource.mk none []))
        () true).1.length = 5
  ∧ (find_offsets () [] (SyncParams.mk 0 5000)
        (ComputeParams.mk 0 30 (LensProfile.mk false) (GyroSource.mk none []))
        () true).1 ≠ [] := ⟨rfl, by simp [find_offsets]⟩

/-- C3 (code bug): with zero sync windows, `full_sync` panics (models as
`none`) when info logging is enabled, because the closing `log::info!`
indexes `sync_points[0]`; only with that logging disabled does it return
the empty result list the spec promises. -/
theorem full_sync_no_windows_panics :
    full_sync (fun _ _ _ _ _ _ _ => none) (GyroSource.mk none []) []
      (SyncParams.mk 0 5000) 0 true = none
  ∧ full_sync (fun _ _ _ _ _ _ _ => none) (GyroSource.mk none []) []
      (SyncParams.mk 0 5000) 0 false = some [] := ⟨rfl, rfl⟩

/-- C6: the effective frame readout time (seconds) is the configured
`frame_readout_time` (ms) divided by 1000 when nonzero, else
`500 / scaled_fps` ms divided by 1000, and is exactly `0.00001` s (10 μs)
whenever the lens declares a global shutter, regardless of the configured
value. -/
theorem effectiveFrameReadoutTime_spec (params : ComputeParams) :
    (params.lens.global_shutter = true →
      effectiveFrameReadoutTime params = 0.00001)
  ∧ (params.lens.global_shutter = false → params.frame_readout_time ≠ 0 →
      effectiveFrameReadoutTime params = params.frame_readout_time / 1000)
  ∧ (params.lens.global_shutter = false → params.frame_readout_time = 0 →
      effectiveFrameReadoutTime params = (500 / params.scaled_fps) / 1000) := by
  refine ⟨fun h => ?_, fun h hne => ?_, fun h he => ?_⟩
  · simp only [effectiveFrameReadoutTime, h, if_true]
    norm_num
  · simp [effectiveFrameReadoutTime, h, hne]
  · simp [effectiveFrameReadoutTime, h, he]
    ring

/-- Witness for C6 at concrete parameters: global shutter forces 10 μs
even with a configured readout of 7 ms; without it the configured value
(resp. the fps-derived value) is used. -/
theorem effectiveFrameReadoutTime_witness :
    effectiveFrameReadoutTime
      (ComputeParams.mk 7 30 (LensProfile.mk true) (GyroSource.mk none [])) = 0.00001
  ∧ effectiveFrameReadoutTime
      (ComputeParams.mk 7 30 (LensProfile.mk false) (GyroSource.mk none [])) = 7 / 1000
  ∧ effectiveFrameReadoutTime
      (ComputeParams.mk 0 50 (LensProfile.mk false) (GyroSource.mk none [])) =
        (500 / 50) / 1000 :=
  ⟨(effectiveFrameReadoutTime_spec _).1 rfl,
   (effectiveFrameReadoutTime_spec _).2.1 rfl (by norm_num),
   (effectiveFrameReadoutTime_spec _).2.2 rfl rfl⟩

/-- C10: `guess_orient` never mutates the shared gyro source: its
orientation label and quaternion series (hence the whole state) are
identical before and after the call; only the private clone is threaded
through the candidate loop. -/
theorem guess_orient_preserves_shared (applyT : GyroSource → GyroSource)
    (pre : PreOracle) (sync_params : SyncParams)
    (sync_points : List (Int × Int)) (gyro : GyroSource) :
    (guess_orient applyT pre sync_params sync_points gyro).2 = gyro
  ∧ (guess_orient applyT pre sync_params sync_points gyro).2.imu_orientation =
      gyro.imu_orientation
  ∧ (guess_orient applyT pre sync_params sync_points gyro).2.quaternions =
      gyro.quaternions := ⟨rfl, rfl, rfl⟩

/-- C7: every time-indexed sample is multiplied by the fixed 180°-about-X
rotation and emitted as `(w, -x, -y, -z)` — equivalently the closed form
`(-x, -w, -z, y)` of the input components; moreover `full_sync` consumes
the gyro series only through `set_quats`, and `guess_orient` feeds its
`pre_sync` oracle only quaternion lists of the form `set_quats …` of the
freshly recomputed series of each candidate iteration. -/
theorem set_quats_spec :
    (∀ src : List (Int × Quat), set_quats src =
        src.map (fun p => (p.1, (-p.2.x, -p.2.w, -p.2.z, p.2.y))))
  ∧ (∀ (opt : OptOracle) (g₁ g₂ : GyroSource) (sp : List (Int × Int))
        (spar : SyncParams) (frt : ℚ) (lg : Bool),
        set_quats g₁.quaternions = set_quats g₂.quaternions →
        full_sync opt g₁ sp spar frt lg = full_sync opt g₂ sp spar frt lg)
  ∧ (∀ (applyT : GyroSource → GyroSource) (pre₁ pre₂ : PreOracle)
        (spar : SyncParams) (spts : List (Int × Int)) (gyro : GyroSource),
        (∀ qs d f t s r, pre₁ (set_quats qs) d f t s r =
            pre₂ (set_quats qs) d f t s r) →
        guess_orient applyT pre₁ spar spts gyro =
          guess_orient applyT pre₂ spar spts gyro) := by
  refine ⟨fun src => ?_, fun opt g₁ g₂ sp spar frt lg h => ?_,
    fun applyT pre₁ pre₂ spar spts gyro h => ?_⟩
  · unfold set_quats
    congr 1
    funext p
    simp [quatMul, rotX180]
  · simp only [full_sync]
    rw [h]
  · have go : ∀ (os : List String) (clone : GyroSource),
        guessOrientGo applyT pre₁ spar spts clone os =
          guessOrientGo applyT pre₂ spar spts clone os := by
      intro os
      induction os with
      | nil => intro clone; rfl
      | cons o rest ih =>
        intro clone
        simp only [guessOrientGo]
        rw [ih]
        have hmap : ∀ q : List (Int × Quat), (fun w : Int × Int =>
            ((pre₁ (set_quats q) (-spar.initial_offset / 1000) w.1 w.2
              (3 / 1000) (spar.search_size / 1000)).getD (0, 0)).1)
          = (fun w : Int × Int =>
            ((pre₂ (set_quats q) (-spar.initial_offset / 1000) w.1 w.2
              (3 / 1000) (spar.search_size / 1000)).getD (0, 0)).1) :=
          fun q => funext fun w => by rw [h]
        rw [hmap]
    simp only [guess_orient]
    rw [go]

/-- Witness for C7: two gyro sources differing only in orientation label
(same series) give the same `full_sync` run, and `guess_orient` does not
distinguish two `pre_sync` oracles that agree on adapted series. -/
theorem set_quats_spec_witness :
    full_sync optConst (GyroSource.mk none [(0, Quat.mk 1 0 0 0)])
        [(0, 1000000)] sparSample 0 true
      = full_sync optConst (GyroSource.mk (some "XYZ") [(0, Quat.mk 1 0 0 0)])
        [(0, 1000000)] sparSample 0 true
  ∧ guess_orient id preNone sparSample [] gyroEmpty
      = guess_orient id preNone sparSample [] gyroEmpty :=
  ⟨set_quats_spec.2.1 optConst _ _ _ _ _ _ rfl,
   set_quats_spec.2.2 id preNone preNone _ _ _ (fun _ _ _ _ _ _ => rfl)⟩

/-- C5: every entry emitted by `full_sync` comes from some window whose
optimizer result `(cost, delay)` satisfies
`|delay·1000 - (-initial_offset)| < 0.9 · search_size` (the pre-conversion
offset stays strictly inside 90% of the search radius around the
sign-inverted caller offset), and the entry is exactly
`(window center, -(delay·1000) - readout·1000/2, cost)`. -/
theorem full_sync_accepted (opt : OptOracle) (gyro : GyroSource)
    (sync_points : List (Int × Int)) (spar : SyncParams) (frt : ℚ) (lg : Bool)
    (res : List (ℚ × ℚ × ℚ)) (entry : ℚ × ℚ × ℚ)
    (hres : full_sync opt gyro sync_points spar frt lg = some res)
    (hentry : entry ∈ res) :
    ∃ w ∈ sync_points, ∃ cost delay,
      opt (set_quats gyro.quaternions) (-spar.initial_offset / 1000) w.1 w.2
          (3 / 1000) (spar.search_size / 1000) 4 = some (cost, delay)
      ∧ |delay * 1000 - -spar.initial_offset| < spar.search_size * 0.9
      ∧ entry = (((w.1 + w.2 : Int) : ℚ) / 2 / 1000,
                 -(delay * 1000) - frt * 1000 / 2, cost) := by
  simp only [full_sync] at hres
  split at hres
  · exact absurd hres (by simp)
  · obtain rfl := Option.some.inj hres
    rw [List.mem_filterMap] at hentry
    obtain ⟨w, hw, hfw⟩ := hentry
    refine ⟨w, hw, ?_⟩
    split at hfw
    · rename_i delay hopt
      split at hfw
      · rename_i hlt
        exact ⟨delay.1, delay.2, by rw [hopt], hlt, (Option.some.inj hfw).symm⟩
      · exact absurd hfw (by simp)
    · exact absurd hfw (by simp)

/-- Witness for C5: a concrete run with one window `(0 μs, 2000000 μs)`,
constant optimizer result `(cost 100, delay 0)`, search size 1000 ms:
`full_sync` emits `[(1000, 0, 100)]` and the theorem's conclusion holds
for that entry. -/
theorem full_sync_accepted_witness :
    ∃ w ∈ [((0 : Int), (2000000 : Int))], ∃ cost delay,
      optConst (set_quats gyroEmpty.quaternions)
          (-sparSample.initial_offset / 1000) w.1 w.2
          (3 / 1000) (sparSample.search_size / 1000) 4 = some (cost, delay)
      ∧ |delay * 1000 - -sparSample.initial_offset| <
          sparSample.search_size * 0.9
      ∧ ((1000 : ℚ), (0 : ℚ), (100 : ℚ)) =
          (((w.1 + w.2 : Int) : ℚ) / 2 / 1000,
           -(delay * 1000) - (0 : ℚ) * 1000 / 2, cost) :=
  full_sync_accepted optConst gyroEmpty [(0, 2000000)] sparSample 0 true
    [(1000, 0, 100)] (1000, 0, 100)
    (by norm_num [full_sync, optConst, gyroEmpty, sparSample, set_quats,
      List.filterMap_cons, List.filterMap_nil])
    (by simp)

/-- Inserting a collected range with fewer than 2 entries anywhere in the
range list leaves the computed `sync_points` unchanged (the `new` loop
`continue`s past it before any processing). -/
theorem mkSyncPoints_skip (undist : Undistort) (n3 : Normalize3) (frt : ℚ)
    (rg : List (OptFlowData × FrameSize)) (h : rg.length < 2) :
    ∀ ls₁ ls₂, mkSyncPoints undist n3 frt (ls₁ ++ rg :: ls₂) =
      mkSyncPoints undist n3 frt (ls₁ ++ ls₂) := by
  intro ls₁
  induction ls₁ with
  | nil => intro ls₂; simp only [List.nil_append, mkSyncPoints, if_pos h]
  | cons a t ih =>
    intro ls₂
    simp only [List.cons_append, mkSyncPoints, List.append_eq]
    rw [ih]

/-- C8: a degenerate range (`end_ts <= start_ts`) collects an empty point
list, and every range whose collected list has fewer than 2 entries
contributes zero sync windows (and hence zero result entries): deleting it
from the range list does not change the computed `sync_points`, and it is
skipped before any processing (no assertion, no crash). -/
theorem insufficient_range_contributes_nothing (undist : Undistort)
    (n3 : Normalize3) (store : List (Int × FrameResult))
    (params : ComputeParams) (r : Int × Int) :
    (r.2 ≤ r.1 → collectRange store r = [])
  ∧ ((collectRange store r).length < 2 →
      ∀ rs₁ rs₂ : List (Int × Int),
        newSyncPoints undist n3 store (rs₁ ++ r :: rs₂) params =
          newSyncPoints undist n3 store (rs₁ ++ rs₂) params) := by
  constructor
  · intro h
    simp only [collectRange, if_neg (not_lt.mpr h)]
  · intro h rs₁ rs₂
    simp only [newSyncPoints, collect_points, List.map_append, List.map_cons]
    exact mkSyncPoints_skip undist n3 (effectiveFrameReadoutTime params) _ h _ _

/-- Witness for C8: the degenerate range `(7, 3)` over an empty store
collects nothing, and as the only requested range it contributes no sync
window: the run is the same as with no ranges at all. -/
theorem insufficient_range_witness :
    collectRange [] ((7 : Int), (3 : Int)) = []
  ∧ newSyncPoints undistId norm3Id [] [((7 : Int), (3 : Int))]
      (ComputeParams.mk 0 30 (LensProfile.mk false) gyroEmpty)
    = newSyncPoints undistId norm3Id [] []
      (ComputeParams.mk 0 30 (LensProfile.mk false) gyroEmpty) :=
  ⟨(insufficient_range_contributes_nothing undistId norm3Id []
      (ComputeParams.mk 0 30 (LensProfile.mk false) gyroEmpty) (7, 3)).1
      (by decide),
   (insufficient_range_contributes_nothing undistId norm3Id []
      (ComputeParams.mk 0 30 (LensProfile.mk false) gyroEmpty) (7, 3)).2
      (by simp [collectRange]) [] []⟩

/-- The rolling-shutter loop completes whenever the index never leaves
either raw point list. -/
theorem buildCorrs_isSome (n3 : Normalize3) (frt : ℚ) (a_t b_t : Int)
    (height : ℚ) (a_p b_p : List Pt) :
    ∀ (la lb : List Pt) (i : Nat), i + la.length ≤ a_p.length →
      i + lb.length ≤ b_p.length →
      (buildCorrs n3 frt a_t b_t height a_p b_p i la lb).isSome = true := by
  intro la
  induction la with
  | nil => intro lb i _ _; simp [buildCorrs]
  | cons ap arest ih =>
    intro lb i ha hb
    cases lb with
    | nil => simp [buildCorrs]
    | cons bp brest =>
      simp only [List.length_cons] at ha hb
      have hia : i < a_p.length := by omega
      have hib : i < b_p.length := by omega
      obtain ⟨ra, hra⟩ : ∃ x, a_p.get? i = some x :=
        ⟨a_p.get ⟨i, hia⟩, List.get?_eq_get hia⟩
      obtain ⟨rb, hrb⟩ : ∃ x, b_p.get? i = some x :=
        ⟨b_p.get ⟨i, hib⟩, List.get?_eq_get hib⟩
      have hrec := ih brest (i + 1) (by omega) (by omega)
      simp only [buildCorrs, hra, hrb]
      cases hrec' : buildCorrs n3 frt a_t b_t height a_p b_p (i + 1) arest brest with
      | none => rw [hrec'] at hrec; simp at hrec
      | some rest => simp

/-- C9: if the two undistorted point lists of a matched frame pair have
unequal lengths, processing that pair aborts (`assert!` fails, modelled
as `none`) and no correspondence is produced; when undistortion preserves
lengths and every matched pair has equal-length raw point lists, the
assertion branch is unreachable and the whole range completes. -/
theorem mismatched_lengths_abort (undist : Undistort) (n3 : Normalize3)
    (frt : ℚ) :
    (∀ (from_ts to_ts : Int) (e : OptFlowData × FrameSize),
        (undist e.1.1.2 from_ts e.2).length ≠ (undist e.1.2.2 to_ts e.2).length →
        processEntry undist n3 frt from_ts to_ts e = none)
  ∧ ((∀ (p : List Pt) (ts : Int) (fs : FrameSize),
        (undist p ts fs).length = p.length) →
      ∀ rg : List (OptFlowData × FrameSize),
        (∀ e ∈ rg, e.1.1.2.length = e.1.2.2.length) →
        (processRange undist n3 frt rg).isSome = true) := by
  constructor
  · intro from_ts to_ts e h
    simp only [processEntry]
    rw [if_neg h]
  · intro hlen
    suffices H : ∀ (rg : List (OptFlowData × FrameSize)) (f t : Int),
        (∀ e ∈ rg, e.1.1.2.length = e.1.2.2.length) →
        (processEntries undist n3 frt f t rg).isSome = true by
      intro rg hrg; exact H rg (-1) 0 hrg
    intro rg
    induction rg with
    | nil => intro f t _; simp [processEntries]
    | cons e rest ih =>
      intro f t hall
      simp only [processEntries]
      have hab : (undist e.1.1.2 (if f = -1 then e.1.1.1 else f) e.2).length =
          (undist e.1.2.2 e.1.2.1 e.2).length := by
        rw [hlen, hlen]; exact hall e (List.mem_cons_self e rest)
      have he : (processEntry undist n3 frt (if f = -1 then e.1.1.1 else f)
          e.1.2.1 e).isSome = true := by
        simp only [processEntry, if_pos hab]
        exact buildCorrs_isSome n3 frt e.1.1.1 e.1.2.1 ((e.2.2 : ℚ))
          e.1.1.2 e.1.2.2 _ _ 0 (by simp [hlen]) (by simp [hlen])
      obtain ⟨c, hc⟩ := Option.isSome_iff_exists.mp he
      rw [hc]
      exact ih _ _ (fun x hx => hall x (List.mem_cons_of_mem _ hx))

/-- Witness for C9: a pair whose undistorted lists have lengths 1 and 0
is rejected (`none`), and a two-entry range of equal-length pairs
(lengths 1 = 1) completes. -/
theorem mismatched_lengths_abort_witness :
    processEntry undistId norm3Id 0 0 0
      (((0, [((1 : ℚ), (1 : ℚ))]), (0, [])), (960, 720)) = none
  ∧ (processRange undistId norm3Id 0
      [(((0, [((0 : ℚ), (0 : ℚ))]), (1000, [((2 : ℚ), (3 : ℚ))])), (960, 720)),
       (((1000, [((2 : ℚ), (3 : ℚ))]), (2000, [((4 : ℚ), (5 : ℚ))])), (960, 720))]).isSome
      = true :=
  ⟨(mismatched_lengths_abort undistId norm3Id 0).1 0 0 _ (by decide),
   (mismatched_lengths_abort undistId norm3Id 0).2 (fun _ _ _ => rfl) _ (by decide)⟩

/-- The reduction closure of `guess_orient` yields a cost lower or equal
to every candidate's cost. -/
theorem foldlMin_le :
    ∀ (xs : List (String × ℚ)) (x : String × ℚ),
      ∀ q ∈ x :: xs,
        (xs.foldl (fun a b => if a.2 < b.2 then a else b) x).2 ≤ q.2 := by
  intro xs
  induction xs with
  | nil =>
    intro x q hq
    simp only [List.foldl_nil]
    rcases List.mem_singleton.mp hq with rfl
    exact le_refl _
  | cons b t ih =>
    intro x q hq
    simp only [List.foldl_cons]
    have hstep_le_x : (if x.2 < b.2 then x else b).2 ≤ x.2 := by
      split
      · exact le_refl _
      · next h => exact le_of_not_lt h
    have hstep_le_b : (if x.2 < b.2 then x else b).2 ≤ b.2 := by
      split
      · next h => exact le_of_lt h
      · exact le_refl _
    have hred := ih (if x.2 < b.2 then x else b)
    rcases List.mem_cons.mp hq with rfl | hq'
    · exact le_trans (hred _ (List.mem_cons_self _ _)) hstep_le_x
    · rcases List.mem_cons.mp hq' with rfl | hq''
      · exact le_trans (hred _ (List.mem_cons_self _ _)) hstep_le_b
      · exact hred q (List.mem_cons_of_mem _ hq'')

/-- The reduction closure of `guess_orient` returns the LAST element
attaining the minimum: every element strictly after the returned one has
strictly larger cost (on ties, `if a.1 < b.1 { a } else { b }` keeps `b`,
the later candidate). -/
theorem foldlMin_split :
    ∀ (xs : List (String × ℚ)) (x : String × ℚ),
      ∃ l₁ l₂, x :: xs =
          l₁ ++ (xs.foldl (fun a b => if a.2 < b.2 then a else b) x) :: l₂
        ∧ ∀ q ∈ l₂,
            (xs.foldl (fun a b => if a.2 < b.2 then a else b) x).2 < q.2 := by
  intro xs
  induction xs with
  | nil => intro x; exact ⟨[], [], rfl, by simp⟩
  | cons b t ih =>
    intro x
    simp only [List.foldl_cons]
    by_cases hx : x.2 < b.2
    · rw [if_pos hx]
      obtain ⟨l₁, l₂, hsp, hl₂⟩ := ih x
      cases l₁ with
      | nil =>
        simp only [List.nil_append] at hsp
        obtain ⟨hx1, hx2⟩ := List.cons.inj hsp
        refine ⟨[], b :: t, ?_, ?_⟩
        · simp only [List.nil_append]
          rw [← hx1]
        · intro q hq
          rcases List.mem_cons.mp hq with rfl | hq'
          · rw [← hx1]; exact hx
          · exact hl₂ q (hx2 ▸ hq')
      | cons c l₁tail =>
        obtain ⟨hc, ht⟩ := List.cons.inj (by simpa using hsp)
        refine ⟨x :: b :: l₁tail, l₂, ?_, hl₂⟩
        simp only [List.cons_append]
        rw [← ht]
    · rw [if_neg hx]
      obtain ⟨l₁, l₂, hsp, hl₂⟩ := ih b
      exact ⟨x :: l₁, l₂, by rw [List.cons_append, ← hsp], hl₂⟩

/-- The candidate loop emits exactly one entry per orientation string, in
iteration order. -/
theorem guessOrientGo_fsts (applyT : GyroSource → GyroSource) (pre : PreOracle)
    (spar : SyncParams) (spts : List (Int × Int)) :
    ∀ (os : List String) (clone : GyroSource),
      (guessOrientGo applyT pre spar spts clone os).map Prod.fst = os := by
  intro os
  induction os with
  | nil => intro clone; rfl
  | cons o rest ih =>
    intro clone
    simp only [guessOrientGo, List.map_cons]
    rw [ih]

/-- C4 (amended): `guess_orient` always returns some candidate whose
string is one of the 48 fixed orientation strings and whose total cost is
less than or equal to every candidate's computed total cost; when several
candidates tie on the minimum, the LAST-seen (rightmost) one in iteration
order is returned — every candidate strictly after the returned one costs
strictly more. -/
theorem guess_orient_min_selection (applyT : GyroSource → GyroSource)
    (pre : PreOracle) (spar : SyncParams) (spts : List (Int × Int))
    (gyro : GyroSource) :
    possible_orientations.length = 48
  ∧ ∃ p, (guess_orient applyT pre spar spts gyro).1 = some p
      ∧ p.1 ∈ possible_orientations
      ∧ (∀ q ∈ guessOrientGo applyT pre spar spts gyro possible_orientations,
          p.2 ≤ q.2)
      ∧ ∃ l₁ l₂,
          guessOrientGo applyT pre spar spts gyro possible_orientations =
            l₁ ++ p :: l₂
          ∧ ∀ q ∈ l₂, p.2 < q.2 := by
  refine ⟨rfl, ?_⟩
  obtain ⟨x, xs, hm⟩ : ∃ x xs,
      guessOrientGo applyT pre spar spts gyro possible_orientations = x :: xs :=
    ⟨_, _, rfl⟩
  refine ⟨xs.foldl (fun a b => if a.2 < b.2 then a else b) x, ?_, ?_, ?_, ?_⟩
  · simp only [guess_orient]
    rw [hm]
    rfl
  · obtain ⟨l₁, l₂, hsp, _⟩ := foldlMin_split xs x
    have hmem : xs.foldl (fun a b => if a.2 < b.2 then a else b) x ∈ x :: xs := by
      rw [hsp]
      exact List.mem_append.mpr (Or.inr (List.mem_cons_self _ _))
    have hfsts := guessOrientGo_fsts applyT pre spar spts possible_orientations gyro
    rw [hm] at hfsts
    rw [← hfsts]
    exact List.mem_map_of_mem Prod.fst hmem
  · intro q hq
    rw [hm] at hq
    exact foldlMin_le xs x q hq
  · obtain ⟨l₁, l₂, hsp, hl₂⟩ := foldlMin_split xs x
    exact ⟨l₁, l₂, by rw [hm]; exact hsp, hl₂⟩

/-- Witness for C4 (amended) at a concrete input: the minimum-selection
and last-tie properties instantiated for the zero-window run. -/
theorem guess_orient_min_selection_witness :
    possible_orientations.length = 48
  ∧ ∃ p, (guess_orient id preNone sparSample [] gyroEmpty).1 = some p
      ∧ p.1 ∈ possible_orientations
      ∧ (∀ q ∈ guessOrientGo id preNone sparSample [] gyroEmpty
          possible_orientations, p.2 ≤ q.2)
      ∧ ∃ l₁ l₂,
          guessOrientGo id preNone sparSample [] gyroEmpty
            possible_orientations = l₁ ++ p :: l₂
          ∧ ∀ q ∈ l₂, p.2 < q.2 :=
  guess_orient_min_selection id preNone sparSample [] gyroEmpty

set_option maxRecDepth 100000 in
/-- C4 counterexample: with zero sync windows every candidate's total cost
is 0 (a 48-way tie); the claim says the first-seen candidate "YxZ" is then
returned, but `guess_orient` returns the last-seen one, "ZXy". -/
theorem guess_orient_tie_returns_last :
    (guess_orient id preNone sparSample [] gyroEmpty).1 = some ("ZXy", 0)
  ∧ (guessOrientGo id preNone sparSample [] gyroEmpty
      possible_orientations).map Prod.snd = List.replicate 48 0
  ∧ possible_orientations.head? = some "YxZ"
  ∧ ("ZXy" : String) ≠ "YxZ" := by
  refine ⟨by decide, by decide, rfl, by decide⟩

end RsSync
